import Mathlib

set_option maxRecDepth 4000

/-!
Verification development for the `evalexpr` expression-language crate
(generic-numeric-types fork).  The definitions below are a shallow embedding
of the crate's code, instantiated at the default numeric types
`IntType = i64`, `FloatType = f64`:

* `src/value/numeric_types.rs` — the `Number`/`Integer`/`Float` trait
  implementations for `i64` and `f64`;
* `src/value/mod.rs` — the `Value` tagged union and its typed accessors;
* `src/function/builtin.rs` — the built-in functions `min`, `max`, `if`, `len`;
* `src/tree/iter.rs` — `NodeIter` / `Node::iter`.

Machine integers are modelled as `ℤ` with explicit range checks.  IEEE-754
binary64 (`f64`) is modelled by the inductive `F64` below: every finite
binary64 value is an integer multiple of `2 ^ (-1074)`, so a finite value is
carried as its exact value times `2 ^ 1074`, an integer; rounding
(round-to-nearest, ties-to-even) and overflow to the infinities are explicit.
The tree evaluator, lexer, parser and error enum are not part of the source
excerpt; where a claim needs them they are modelled from the spec and marked
as such in their doc comments.
-/

/-! ## Powers of two and the base-2 integer logarithm

Helper arithmetic used by the float model.  Both functions use explicit
fuel so that they are structurally recursive with small recursion depth,
which keeps them evaluable by `decide` on numbers of thousands of bits. -/

/-- Binary exponentiation with fuel: `pow2F f k = 2 ^ k` whenever `k < 2 ^ f`. -/
def pow2F : ℕ → ℕ → ℕ
  | 0, _ => 1
  | f + 1, k =>
    if k = 0 then 1
    else
      let h := pow2F f (k / 2)
      if k % 2 = 0 then h * h else 2 * (h * h)

/-- `pow2 k = 2 ^ k` (for every `k < 2 ^ 64`). -/
def pow2 (k : ℕ) : ℕ := pow2F 64 k

/-- Chunked base-2 logarithm, 64 bits at a time: returns the largest multiple
`64 * j` (with `j` at most the fuel) such that `n / 2 ^ (64 * j) ≥ 1` still has
at least 64 bits, counting in steps of 64. -/
def log2Chunks : ℕ → ℕ → ℕ
  | 0, _ => 0
  | f + 1, n => if n < pow2 64 then 0 else log2Chunks f (n / pow2 64) + 64

/-- Bit-by-bit base-2 logarithm with fuel: `log2Small f n = ⌊log₂ n⌋` for
`1 ≤ n < 2 ^ f`. -/
def log2Small : ℕ → ℕ → ℕ
  | 0, _ => 0
  | f + 1, n => if n < 2 then 0 else log2Small f (n / 2) + 1

/-- `natLog2 n = ⌊log₂ n⌋` for `1 ≤ n < 2 ^ 4096` (and `0` for `n = 0`). -/
def natLog2 (n : ℕ) : ℕ :=
  let c := log2Chunks 64 n
  c + log2Small 128 (n / pow2 c)

/-! ## IEEE-754 binary64 model -/

/-- Model of an IEEE-754 binary64 floating-point value (`f64`).  `Fin m`
denotes the finite value `m / 2 ^ 1074` (every finite binary64 value is such
a multiple; the sign of zero is not modelled, no definition in this
development distinguishes `0.0` from `-0.0`). -/
inductive F64 where
  | NegInf
  | Fin (m : ℤ)
  | PosInf
  | NaN
deriving DecidableEq, Repr

/-- `f64::MAX = (2 - 2⁻⁵²)·2¹⁰²³ = 2¹⁰²⁴ - 2⁹⁷¹`, the largest finite binary64
value, in the scaled representation (times `2 ^ 1074`). -/
def f64MaxM : ℤ := ((pow2 2098 - pow2 2045 : ℕ) : ℤ)

/-- `f64::MIN = -f64::MAX`, the least finite binary64 value, scaled. -/
def f64MinM : ℤ := -f64MaxM

/-- The binade exponent of the nonzero value `m / 2 ^ 1074`: the unique `e`
with `2 ^ e ≤ |m| / 2 ^ 1074 < 2 ^ (e + 1)`. -/
def scaledLog2 (m : ℤ) : ℤ := (natLog2 m.natAbs : ℤ) - 1074

/-- Round the fraction `n / d` (with `d > 0`) to the nearest integer,
ties to even — the IEEE-754 default rounding attribute. -/
def rheFrac (n d : ℤ) : ℤ :=
  let f := Int.fdiv n d
  let r := n - f * d
  if 2 * r < d then f
  else if d < 2 * r then f + 1
  else if 2 ∣ f then f else f + 1

/-- The ulp exponent of binary64 at a value in binade `e`:
`max e (-1022) - 52` (including the subnormal range). -/
def ulpExp (e : ℤ) : ℤ := max e (-1022) - 52

/-- Round an exact scaled value `m` (the value `m / 2 ^ 1074`) to the binary64
grid, round-to-nearest-even with unbounded exponent: the grid step at the
value is `2 ^ ulpExp`, i.e. `2 ^ (ulpExp + 1074)` scaled units. -/
def roundScaled (m : ℤ) : ℤ :=
  if m = 0 then 0
  else
    let G : ℤ := ((pow2 (ulpExp (scaledLog2 m) + 1074).toNat : ℕ) : ℤ)
    rheFrac m G * G

/-- Map an already-rounded scaled value into `F64`, overflowing to an
infinity when its magnitude exceeds the largest finite value
(the IEEE-754 overflow rule). -/
def clampF64 (r : ℤ) : F64 :=
  if f64MaxM < r then F64.PosInf
  else if r < f64MinM then F64.NegInf
  else F64.Fin r

/-- Round an exact scaled value into `F64`. -/
def mkF64 (m : ℤ) : F64 := clampF64 (roundScaled m)

/-- Negation on binary64 (exact; `-(±∞) = ∓∞`, `-NaN = NaN`). -/
def f64_neg : F64 → F64
  | F64.NegInf => F64.PosInf
  | F64.Fin m => F64.Fin (-m)
  | F64.PosInf => F64.NegInf
  | F64.NaN => F64.NaN

/-- IEEE-754 addition on binary64: the exact sum of finite operands (exact in
the scaled representation) followed by rounding; `∞ + (-∞) = NaN`; NaN
propagates. -/
def f64_add : F64 → F64 → F64
  | F64.NaN, _ => F64.NaN
  | _, F64.NaN => F64.NaN
  | F64.PosInf, F64.NegInf => F64.NaN
  | F64.NegInf, F64.PosInf => F64.NaN
  | F64.PosInf, _ => F64.PosInf
  | _, F64.PosInf => F64.PosInf
  | F64.NegInf, _ => F64.NegInf
  | _, F64.NegInf => F64.NegInf
  | F64.Fin a, F64.Fin b => mkF64 (a + b)

/-- IEEE-754 subtraction on binary64, as addition of the negation. -/
def f64_sub (a b : F64) : F64 := f64_add a (f64_neg b)

/-- IEEE-754 division on binary64: the exact quotient `a / b` of the values
(the scale cancels) rounded to the grid at its own binade; division by zero
gives a signed infinity (`0/0 = NaN`); NaN propagates.  (With unsigned zero,
division by `-0.0` is not distinguished from division by `0.0`.) -/
def f64_div : F64 → F64 → F64
  | F64.NaN, _ => F64.NaN
  | _, F64.NaN => F64.NaN
  | F64.PosInf, F64.PosInf => F64.NaN
  | F64.PosInf, F64.NegInf => F64.NaN
  | F64.NegInf, F64.PosInf => F64.NaN
  | F64.NegInf, F64.NegInf => F64.NaN
  | F64.PosInf, F64.Fin b => if b < 0 then F64.NegInf else F64.PosInf
  | F64.NegInf, F64.Fin b => if b < 0 then F64.PosInf else F64.NegInf
  | F64.Fin _, F64.PosInf => F64.Fin 0
  | F64.Fin _, F64.NegInf => F64.Fin 0
  | F64.Fin a, F64.Fin b =>
    if b = 0 then
      if a = 0 then F64.NaN
      else if a < 0 then F64.NegInf
      else F64.PosInf
    else if a = 0 then F64.Fin 0
    else
      let na := a.natAbs
      let nb := b.natAbs
      let e : ℤ :=
        if nb ≤ na then (natLog2 (na / nb) : ℤ)
        else -((natLog2 ((nb - 1) / na) : ℤ) + 1)
      let g : ℤ := ulpExp e
      let n : ℤ := if b < 0 then -a else a
      let d : ℤ := if b < 0 then -b else b
      let num : ℤ := if 0 ≤ g then n else n * ((pow2 (-g).toNat : ℕ) : ℤ)
      let den : ℤ := if 0 ≤ g then d * ((pow2 g.toNat : ℕ) : ℤ) else d
      clampF64 (rheFrac num den * ((pow2 (g + 1074).toNat : ℕ) : ℤ))

/-- The IEEE-754 (partial-order) `<` on binary64: any comparison with NaN is
false; `-∞ <` every finite value `< +∞`. -/
def f64_lt : F64 → F64 → Bool
  | F64.NaN, _ => false
  | _, F64.NaN => false
  | F64.NegInf, F64.NegInf => false
  | F64.NegInf, _ => true
  | _, F64.NegInf => false
  | F64.PosInf, _ => false
  | F64.Fin _, F64.PosInf => true
  | F64.Fin a, F64.Fin b => decide (a < b)

/-- The IEEE-754 `>` on binary64. -/
def f64_gt (a b : F64) : Bool := f64_lt b a

/-- The IEEE-754 `==` on binary64 (NaN is not equal to anything, including
itself): the semantics of Rust's derived `PartialEq` on an `f64` field. -/
def f64_eq : F64 → F64 → Bool
  | F64.NaN, _ => false
  | _, F64.NaN => false
  | F64.NegInf, F64.NegInf => true
  | F64.PosInf, F64.PosInf => true
  | F64.Fin a, F64.Fin b => decide (a = b)
  | _, _ => false

/-- `f64::is_infinite` (`Float::is_infinite` in `src/value/numeric_types.rs`). -/
def f64_is_infinite : F64 → Bool
  | F64.PosInf => true
  | F64.NegInf => true
  | _ => false

/-- `f64::is_sign_negative` (used by the `debug_assert` in
`<f64 as Number>::min_value`, `src/value/numeric_types.rs` line 233). -/
def f64_is_sign_negative : F64 → Bool
  | F64.NegInf => true
  | F64.Fin m => decide (m < 0)
  | _ => false

/-- The binary64 value `1.0`, scaled. -/
def f64One : F64 := F64.Fin ((pow2 1074 : ℕ) : ℤ)

/-- The binary64 value `2.5 = 5 · 2⁻¹`, scaled. -/
def f64TwoPointFive : F64 := F64.Fin (5 * ((pow2 1073 : ℕ) : ℤ))

/-- `<f64 as Number>::min_value` (`src/value/numeric_types.rs` lines 230-235):
computes `f64::MIN - 1.0` and returns `Some` of it, after
`debug_assert!`ing that the result is infinite and sign-negative. -/
def f64_num_min_value : Option F64 := some (f64_sub (F64.Fin f64MinM) f64One)

/-- `<f64 as Number>::max_value` (`src/value/numeric_types.rs` lines 237-242):
computes `f64::MAX + 1.0` and returns `Some` of it, after
`debug_assert!`ing that the result is infinite and sign-positive. -/
def f64_num_max_value : Option F64 := some (f64_add (F64.Fin f64MaxM) f64One)

/-- `<f64 as Number>::min`: `if self < other { self } else { other }`. -/
def f64_num_min (a b : F64) : F64 := if f64_lt a b then a else b

/-- `<f64 as Number>::max`: `if self > other { self } else { other }`. -/
def f64_num_max (a b : F64) : F64 := if f64_gt a b then a else b

/-! ## The `i64` integer type

`i64` values are modelled as integers in `[-2⁶³, 2⁶³ - 1]`; the checked
operations of `impl Integer<f64> for i64` (`src/value/numeric_types.rs`
lines 170-227) make the range check explicit. -/

/-- `i64::MIN = -2⁶³`. -/
def i64MinInt : ℤ := -((pow2 63 : ℕ) : ℤ)

/-- `i64::MAX = 2⁶³ - 1`. -/
def i64MaxInt : ℤ := ((pow2 63 : ℕ) : ℤ) - 1

/-- `<i64 as Number>::min_value` (`src/value/numeric_types.rs` lines 145-147). -/
def i64_num_min_value : Option ℤ := some i64MinInt

/-- `<i64 as Number>::max_value` (`src/value/numeric_types.rs` lines 149-151). -/
def i64_num_max_value : Option ℤ := some i64MaxInt

/-- `<i64 as Number>::min`: `if self < other { self } else { other }`. -/
def i64_num_min (a b : ℤ) : ℤ := if a < b then a else b

/-- `<i64 as Number>::max`: `if self > other { self } else { other }`. -/
def i64_num_max (a b : ℤ) : ℤ := if b < a then a else b

/-- `i64::checked_add`: `None` exactly when the exact sum leaves the
`i64` range. -/
def i64_checked_add (a b : ℤ) : Option ℤ :=
  if a + b < i64MinInt ∨ i64MaxInt < a + b then none else some (a + b)

/-- `i64::checked_sub`. -/
def i64_checked_sub (a b : ℤ) : Option ℤ :=
  if a - b < i64MinInt ∨ i64MaxInt < a - b then none else some (a - b)

/-- `i64::checked_mul`. -/
def i64_checked_mul (a b : ℤ) : Option ℤ :=
  if a * b < i64MinInt ∨ i64MaxInt < a * b then none else some (a * b)

/-- `i64::checked_div`: `None` on division by zero and on the overflowing
quotient `i64::MIN / -1`; Rust's `/` on integers truncates toward zero. -/
def i64_checked_div (a b : ℤ) : Option ℤ :=
  if b = 0 ∨ (a = i64MinInt ∧ b = -1) then none else some (Int.tdiv a b)

/-- `i64::checked_rem`: `None` on a zero divisor and on `i64::MIN % -1`;
Rust's `%` takes the sign of the dividend. -/
def i64_checked_rem (a b : ℤ) : Option ℤ :=
  if b = 0 ∨ (a = i64MinInt ∧ b = -1) then none else some (Int.tmod a b)

/-- `i64::checked_neg`: `None` exactly on `i64::MIN`. -/
def i64_checked_neg (a : ℤ) : Option ℤ :=
  if a = i64MinInt then none else some (-a)

/-- `<i64 as Integer<f64>>::as_float`: `*self as f64`, the IEEE-754
round-to-nearest conversion (exact for magnitudes up to 2⁵³). -/
def i64_as_float (i : ℤ) : F64 := mkF64 (i * ((pow2 1074 : ℕ) : ℤ))

/-- `<i64 as Integer<f64>>::from_usize_lossy`: `value as i64`, the two's
complement reinterpretation of a `usize` (wraps modulo 2⁶⁴). -/
def i64_from_usize_lossy (value : ℕ) : ℤ :=
  let m := value % pow2 64
  if m < pow2 63 then (m : ℤ) else (m : ℤ) - ((pow2 64 : ℕ) : ℤ)

/-! ## The value model (`src/value/mod.rs`)

`Value<IntType, FloatType>` instantiated at the default `i64`/`f64`. -/

/-- The type of a value, `ValueType` (`src/value/value_type.rs`, referenced
by `EvalexprError::type_error` in the `len` built-in). -/
inductive ValueType where
  | String
  | Float
  | Int
  | Boolean
  | Tuple
  | Empty
deriving DecidableEq, Repr

/-- The `Value` tagged union (`src/value/mod.rs` lines 23-38):
String/Float/Int/Boolean/Tuple/Empty, with `derive(PartialEq)` giving
structural equality. -/
inductive Value where
  | Str (s : String)
  | Float (f : F64)
  | Int (i : ℤ)
  | Boolean (b : Bool)
  | Tuple (t : List Value)
  | Empty
deriving Repr

/-- The error enum.  Modelled from the spec: the error module is not part of
the source excerpt; the constructors and their payloads are those used by
`src/value/mod.rs` and `src/function/builtin.rs` (`expected_string`,
`expected_int`, `expected_float`, `expected_boolean`, `expected_tuple`,
`expected_fixed_len_tuple`, `expected_empty`, `expected_number`,
`type_error`, `NoMinValue`, `NoMaxValue`) together with the arithmetic and
lookup failures of spec §7 — each carries the offending value and, where
relevant, the expected type or arity, never a bare string. -/
inductive EvalexprError where
  | ExpectedString (actual : Value)
  | ExpectedInt (actual : Value)
  | ExpectedFloat (actual : Value)
  | ExpectedBoolean (actual : Value)
  | ExpectedTuple (actual : Value)
  | ExpectedFixedLenTuple (expected_len : ℕ) (actual : Value)
  | ExpectedEmpty (actual : Value)
  | ExpectedNumber (actual : Value)
  | TypeError (actual : Value) (expected : List ValueType)
  | NoMinValue
  | NoMaxValue
  | AdditionError (augend : Value) (addend : Value)
  | DivisionError (dividend : Value) (divisor : Value)
  | VariableIdentifierNotFound (identifier : String)
  | FunctionIdentifierNotFound (identifier : String)
deriving Repr

/-- `Value::as_string` (`src/value/mod.rs` lines 88-93): the contained
`String` when `self` is a `Value::String`, otherwise `expected_string`
carrying the offending value. -/
def as_string : Value → Except EvalexprError String
  | Value.Str s => Except.ok s
  | v => Except.error (EvalexprError.ExpectedString v)

/-- `Value::as_int` (`src/value/mod.rs` lines 96-101). -/
def as_int : Value → Except EvalexprError ℤ
  | Value.Int i => Except.ok i
  | v => Except.error (EvalexprError.ExpectedInt v)

/-- `Value::as_float` (`src/value/mod.rs` lines 104-109). -/
def as_float : Value → Except EvalexprError F64
  | Value.Float f => Except.ok f
  | v => Except.error (EvalexprError.ExpectedFloat v)

/-- `Value::as_boolean` (`src/value/mod.rs` lines 112-117). -/
def as_boolean : Value → Except EvalexprError Bool
  | Value.Boolean b => Except.ok b
  | v => Except.error (EvalexprError.ExpectedBoolean v)

/-- `Value::as_tuple` (`src/value/mod.rs` lines 120-125). -/
def as_tuple : Value → Except EvalexprError (List Value)
  | Value.Tuple t => Except.ok t
  | v => Except.error (EvalexprError.ExpectedTuple v)

/-- `Value::as_fixed_len_tuple` (`src/value/mod.rs` lines 128-139): the
contained tuple when it has exactly `len` elements; a tuple of the wrong
length gives `expected_fixed_len_tuple(len, self)`, a non-tuple gives
`expected_tuple`. -/
def as_fixed_len_tuple (len : ℕ) : Value → Except EvalexprError (List Value)
  | Value.Tuple t =>
    if t.length = len then Except.ok t
    else Except.error (EvalexprError.ExpectedFixedLenTuple len (Value.Tuple t))
  | v => Except.error (EvalexprError.ExpectedTuple v)

/-- `Value::as_empty` (`src/value/mod.rs` lines 142-147). -/
def as_empty : Value → Except EvalexprError Unit
  | Value.Empty => Except.ok ()
  | v => Except.error (EvalexprError.ExpectedEmpty v)

/-- `Value::as_number` (`src/value/mod.rs` lines 153-159): a `Float` as is,
an `Int` silently converted via `as_float`, anything else is
`expected_number`. -/
def as_number : Value → Except EvalexprError F64
  | Value.Float f => Except.ok f
  | Value.Int i => Except.ok (i64_as_float i)
  | v => Except.error (EvalexprError.ExpectedNumber v)

/-! ## Built-in functions (`src/function/builtin.rs`)

The entries of `builtin_function` that the claims exercise: `min`, `max`,
`if`, `len`.  The remaining entries (transcendental math, string case/trim,
regex, random, bitwise) dispatch to the same value/numeric abstraction and
are not needed by any claim. -/

/-- The loop body of the `min` built-in (`src/function/builtin.rs` lines
111-119): a `Float` argument folds into the float accumulator with
`Number::min`, an `Int` argument into the integer accumulator, anything else
aborts with `expected_number`. -/
def min_fold : List Value → Option ℤ → Option F64 →
    Except EvalexprError (Option ℤ × Option F64)
  | [], min_int, min_float => Except.ok (min_int, min_float)
  | Value.Float f :: rest, min_int, min_float =>
    min_fold rest min_int (min_float.map (fun t => f64_num_min t f))
  | Value.Int i :: rest, min_int, min_float =>
    min_fold rest (min_int.map (fun t => i64_num_min t i)) min_float
  | v :: _, _, _ => Except.error (EvalexprError.ExpectedNumber v)

/-- The `min` built-in (`src/function/builtin.rs` lines 104-134).  Note the
accumulators are seeded with `IntType::min_value()` and
`FloatType::min_value()` (lines 106-107) before folding with `Number::min`;
the final comparison `&min_int.as_float() < min_float` picks the `Int`
accumulator only when it is strictly below the float one. -/
def min_builtin (argument : Value) : Except EvalexprError Value :=
  match as_tuple argument with
  | Except.error e => Except.error e
  | Except.ok arguments =>
    match min_fold arguments i64_num_min_value f64_num_min_value with
    | Except.error e => Except.error e
    | Except.ok (some min_int, some min_float) =>
      if f64_lt (i64_as_float min_int) min_float then Except.ok (Value.Int min_int)
      else Except.ok (Value.Float min_float)
    | Except.ok (some min_int, none) => Except.ok (Value.Int min_int)
    | Except.ok (none, some min_float) => Except.ok (Value.Float min_float)
    | Except.ok (none, none) => Except.error EvalexprError.NoMinValue

/-- The loop body of the `max` built-in (`src/function/builtin.rs` lines
142-150), folding with `Number::max`. -/
def max_fold : List Value → Option ℤ → Option F64 →
    Except EvalexprError (Option ℤ × Option F64)
  | [], max_int, max_float => Except.ok (max_int, max_float)
  | Value.Float f :: rest, max_int, max_float =>
    max_fold rest max_int (max_float.map (fun t => f64_num_max t f))
  | Value.Int i :: rest, max_int, max_float =>
    max_fold rest (max_int.map (fun t => i64_num_max t i)) max_float
  | v :: _, _, _ => Except.error (EvalexprError.ExpectedNumber v)

/-- The `max` built-in (`src/function/builtin.rs` lines 135-165): the
accumulators are seeded with `IntType::min_value()` and
`FloatType::min_value()` (lines 137-138); the final comparison
`&max_int.as_float() > max_float` picks the `Int` accumulator only when it is
strictly above the float one; the unreachable both-`None` arm returns
`NoMinValue` (line 163). -/
def max_builtin (argument : Value) : Except EvalexprError Value :=
  match as_tuple argument with
  | Except.error e => Except.error e
  | Except.ok arguments =>
    match max_fold arguments i64_num_min_value f64_num_min_value with
    | Except.error e => Except.error e
    | Except.ok (some max_int, some max_float) =>
      if f64_gt (i64_as_float max_int) max_float then Except.ok (Value.Int max_int)
      else Except.ok (Value.Float max_float)
    | Except.ok (some max_int, none) => Except.ok (Value.Int max_int)
    | Except.ok (none, some max_float) => Except.ok (Value.Float max_float)
    | Except.ok (none, none) => Except.error EvalexprError.NoMinValue

/-- The `if` built-in (`src/function/builtin.rs` lines 166-170): the argument
must be a 3-tuple, its first element a `Boolean`; `swap_remove(1)` returns
the second element, `swap_remove(2)` the third. -/
def if_builtin (argument : Value) : Except EvalexprError Value :=
  match as_fixed_len_tuple 3 argument with
  | Except.error e => Except.error e
  | Except.ok arguments =>
    match arguments with
    | [c, t, e] =>
      (match as_boolean c with
       | Except.error err => Except.error err
       | Except.ok b => Except.ok (if b then t else e))
    | _ => Except.error (EvalexprError.ExpectedFixedLenTuple 3 argument)

/-- The `len` built-in (`src/function/builtin.rs` lines 171-182): the byte
length of a `String` (Rust `String::len`) or the arity of a `Tuple`, as an
`Int` via `from_usize_lossy`; any other argument is a `type_error` naming
`String` and `Tuple` as the acceptable kinds. -/
def len_builtin (argument : Value) : Except EvalexprError Value :=
  match argument with
  | Value.Str subject => Except.ok (Value.Int (i64_from_usize_lossy subject.utf8ByteSize))
  | Value.Tuple subject => Except.ok (Value.Int (i64_from_usize_lossy subject.length))
  | v => Except.error (EvalexprError.TypeError v [ValueType.String, ValueType.Tuple])

/-- The dispatch-by-name table `builtin_function`
(`src/function/builtin.rs` line 50), restricted to the four entries the
claims exercise; every other name in the source catalog maps to functions
outside the scope of the claims and is left unresolved here. -/
def builtin_function : String → Option (Value → Except EvalexprError Value)
  | "min" => some min_builtin
  | "max" => some max_builtin
  | "if" => some if_builtin
  | "len" => some len_builtin
  | _ => none

/-! ## Structural value equality (`derive(PartialEq)` on `Value`)

`src/value/mod.rs` line 23 derives `PartialEq`: two values are equal iff
they are the same variant with equal payloads; the `Float` payload compares
with `f64`'s `PartialEq` (so NaN is unequal to itself), tuples compare
element-wise. -/

mutual

/-- Rust's derived `PartialEq::eq` on `Value`. -/
def value_eq : Value → Value → Bool
  | Value.Str a, Value.Str b => a == b
  | Value.Float a, Value.Float b => f64_eq a b
  | Value.Int a, Value.Int b => a == b
  | Value.Boolean a, Value.Boolean b => a == b
  | Value.Tuple a, Value.Tuple b => value_list_eq a b
  | Value.Empty, Value.Empty => true
  | _, _ => false

/-- Element-wise equality of tuple payloads (Rust's `PartialEq` on `Vec`). -/
def value_list_eq : List Value → List Value → Bool
  | [], [] => true
  | x :: xs, y :: ys => value_eq x y && value_list_eq xs ys
  | _, _ => false

end

/-! ## The tree evaluator

Modelled from the spec: the operator/evaluator module (`tree/mod.rs`,
`operator.rs`) is not part of the source excerpt.  The definitions below
follow spec §4.2/§4.3: an operator tree evaluated against a mutable context
of variable bindings; post-order evaluation except the short-circuiting
`&&`/`||`; mixed Int/Float arithmetic coerces the Int operand to Float;
Int/Int arithmetic uses the checked operations and reports overflow and
division by zero; `==` is structural value equality; assignment writes the
evaluated right-hand side into the context and yields the written value;
a function-application node evaluates its argument subtree to a value
first, then dispatches (here: to the built-in catalog; the modelled context
carries no function bindings). -/

/-- An operator-tree node, restricted to the operators the claims exercise.
Modelled from the spec (§4.2): literals, variable identifiers, `+`, `/`,
`==`, `&&`, `||`, assignment, tuple construction and function application. -/
inductive Expr where
  | const (v : Value)
  | var (identifier : String)
  | add (l r : Expr)
  | div (l r : Expr)
  | eq (l r : Expr)
  | and (l r : Expr)
  | or (l r : Expr)
  | assign (identifier : String) (r : Expr)
  | tuple (elems : List Expr)
  | call (identifier : String) (argument : Expr)

/-- A context: the variable bindings, an identifier-keyed mapping.
Modelled from the spec (§4.5): lookup is verbatim and case-sensitive,
setting an existing name overwrites. -/
def Context := List (String × Value)

/-- `Context::get_variable`. -/
def get_variable : Context → String → Option Value
  | [], _ => none
  | (k, v) :: rest, name => if k = name then some v else get_variable rest name

/-- `Context::set_variable`: overwrite in place, or append a fresh binding. -/
def set_variable : Context → String → Value → Context
  | [], name, val => [(name, val)]
  | (k, v) :: rest, name, val =>
    if k = name then (k, val) :: rest else (k, v) :: set_variable rest name val

/-- Binary `+` on values.  Modelled from the spec (§4.3): two Ints stay Int
via `checked_add` with overflow reported, a mixed Int/Float pair coerces the
Int to Float, two Floats add as floats; non-numeric operands are an
expected-number error. -/
def value_add : Value → Value → Except EvalexprError Value
  | Value.Int a, Value.Int b =>
    (match i64_checked_add a b with
     | some s => Except.ok (Value.Int s)
     | none => Except.error (EvalexprError.AdditionError (Value.Int a) (Value.Int b)))
  | Value.Int a, Value.Float b => Except.ok (Value.Float (f64_add (i64_as_float a) b))
  | Value.Float a, Value.Int b => Except.ok (Value.Float (f64_add a (i64_as_float b)))
  | Value.Float a, Value.Float b => Except.ok (Value.Float (f64_add a b))
  | Value.Int _, b => Except.error (EvalexprError.ExpectedNumber b)
  | Value.Float _, b => Except.error (EvalexprError.ExpectedNumber b)
  | a, _ => Except.error (EvalexprError.ExpectedNumber a)

/-- Binary `/` on values.  Modelled from the spec (§4.3): Int/Int uses
`checked_div` (division by zero and `i64::MIN / -1` are reported errors),
mixed operands coerce to Float, Float/Float divides as floats. -/
def value_div : Value → Value → Except EvalexprError Value
  | Value.Int a, Value.Int b =>
    (match i64_checked_div a b with
     | some q => Except.ok (Value.Int q)
     | none => Except.error (EvalexprError.DivisionError (Value.Int a) (Value.Int b)))
  | Value.Int a, Value.Float b => Except.ok (Value.Float (f64_div (i64_as_float a) b))
  | Value.Float a, Value.Int b => Except.ok (Value.Float (f64_div a (i64_as_float b)))
  | Value.Float a, Value.Float b => Except.ok (Value.Float (f64_div a b))
  | Value.Int _, b => Except.error (EvalexprError.ExpectedNumber b)
  | Value.Float _, b => Except.error (EvalexprError.ExpectedNumber b)
  | a, _ => Except.error (EvalexprError.ExpectedNumber a)

mutual

/-- The tree evaluator, modelled from the spec (§4.3): recursive post-order
evaluation threading the mutable context, uniform first-failure propagation;
`&&`/`||` do not evaluate the right child once the left operand determines
the result; both operands of `&&`/`||` must be Boolean when evaluated;
assignment yields the written value; a call evaluates its (pre-built)
argument subtree, then dispatches the name to the built-in catalog. -/
def eval : Expr → Context → Except EvalexprError (Value × Context)
  | Expr.const v, c => Except.ok (v, c)
  | Expr.var name, c =>
    (match get_variable c name with
     | some v => Except.ok (v, c)
     | none => Except.error (EvalexprError.VariableIdentifierNotFound name))
  | Expr.add l r, c =>
    (match eval l c with
     | Except.error e => Except.error e
     | Except.ok (lv, c1) =>
       match eval r c1 with
       | Except.error e => Except.error e
       | Except.ok (rv, c2) =>
         match value_add lv rv with
         | Except.error e => Except.error e
         | Except.ok v => Except.ok (v, c2))
  | Expr.div l r, c =>
    (match eval l c with
     | Except.error e => Except.error e
     | Except.ok (lv, c1) =>
       match eval r c1 with
       | Except.error e => Except.error e
       | Except.ok (rv, c2) =>
         match value_div lv rv with
         | Except.error e => Except.error e
         | Except.ok v => Except.ok (v, c2))
  | Expr.eq l r, c =>
    (match eval l c with
     | Except.error e => Except.error e
     | Except.ok (lv, c1) =>
       match eval r c1 with
       | Except.error e => Except.error e
       | Except.ok (rv, c2) => Except.ok (Value.Boolean (value_eq lv rv), c2))
  | Expr.and l r, c =>
    (match eval l c with
     | Except.error e => Except.error e
     | Except.ok (lv, c1) =>
       match as_boolean lv with
       | Except.error e => Except.error e
       | Except.ok false => Except.ok (Value.Boolean false, c1)
       | Except.ok true =>
         match eval r c1 with
         | Except.error e => Except.error e
         | Except.ok (rv, c2) =>
           match as_boolean rv with
           | Except.error e => Except.error e
           | Except.ok rb => Except.ok (Value.Boolean rb, c2))
  | Expr.or l r, c =>
    (match eval l c with
     | Except.error e => Except.error e
     | Except.ok (lv, c1) =>
       match as_boolean lv with
       | Except.error e => Except.error e
       | Except.ok true => Except.ok (Value.Boolean true, c1)
       | Except.ok false =>
         match eval r c1 with
         | Except.error e => Except.error e
         | Except.ok (rv, c2) =>
           match as_boolean rv with
           | Except.error e => Except.error e
           | Except.ok rb => Except.ok (Value.Boolean rb, c2))
  | Expr.assign name r, c =>
    (match eval r c with
     | Except.error e => Except.error e
     | Except.ok (rv, c1) => Except.ok (rv, set_variable c1 name rv))
  | Expr.tuple elems, c =>
    (match eval_list elems c with
     | Except.error e => Except.error e
     | Except.ok (vs, c1) => Except.ok (Value.Tuple vs, c1))
  | Expr.call name argument, c =>
    (match eval argument c with
     | Except.error e => Except.error e
     | Except.ok (av, c1) =>
       match builtin_function name with
       | some f =>
         (match f av with
          | Except.error e => Except.error e
          | Except.ok v => Except.ok (v, c1))
       | none => Except.error (EvalexprError.FunctionIdentifierNotFound name))

/-- Left-to-right evaluation of tuple element subtrees, threading the
context (spec §4.3: children are evaluated before the node's operator). -/
def eval_list : List Expr → Context → Except EvalexprError (List Value × Context)
  | [], c => Except.ok ([], c)
  | e :: rest, c =>
    (match eval e c with
     | Except.error err => Except.error err
     | Except.ok (v, c1) =>
       match eval_list rest c1 with
       | Except.error err => Except.error err
       | Except.ok (vs, c2) => Except.ok (v :: vs, c2))

end

/-! ## The operator-tree node and its iterator (`src/tree/iter.rs`)

Spec §3: a `Node` holds an operator tag and an ordered sequence of owned
child nodes; `NodeIter` (`src/tree/iter.rs`) walks the tree with an explicit
stack of child-list iterators.  The iterator is generic in the payload — it
never inspects the operator tag — so the tag type is a parameter here. -/

/-- An operator-tree node: an operator tag and the ordered children
(`Node { operator, children }`). -/
inductive Node (α : Type) where
  | mk (operator : α) (children : List (Node α))

/-- The `children` field of a node. -/
def Node.children {α : Type} : Node α → List (Node α)
  | Node.mk _ cs => cs

mutual

/-- The number of nodes in the subtree rooted at a node. -/
def node_size {α : Type} : Node α → ℕ
  | Node.mk _ cs => 1 + node_list_size cs

/-- The total number of nodes in a forest (counting whole subtrees). -/
def node_list_size {α : Type} : List (Node α) → ℕ
  | [] => 0
  | n :: rest => node_size n + node_list_size rest

end

/-- The `NodeIter` stack: a list of in-progress child-list iterators, each
represented by its not-yet-yielded nodes.  The head is the top of the Rust
`Vec` (its last element). -/
def NodeIterStack (α : Type) : Type := List (List (Node α))

/-- `NodeIter::new` (`src/tree/iter.rs` lines 10-14): the stack starts with
the ROOT'S CHILD iterator — the root itself is never pushed. -/
def node_iter_new {α : Type} (n : Node α) : NodeIterStack α := [n.children]

/-- One call to `NodeIter::next` (`src/tree/iter.rs` lines 20-41): pop
exhausted iterators until the top yields a node; push that node's child
iterator and return the node; an empty stack ends the iteration. -/
def node_iter_next {α : Type} : NodeIterStack α → Option (Node α × NodeIterStack α)
  | [] => none
  | [] :: rest => node_iter_next rest
  | (h :: t) :: rest => some (h, h.children :: t :: rest)

/-- The total subtree size of all nodes left on the stack. -/
def stack_size {α : Type} : NodeIterStack α → ℕ
  | [] => 0
  | l :: rest => node_list_size l + stack_size rest

/-- All nodes produced by repeatedly calling `next` on a `NodeIter` stack
until it is exhausted, in order. -/
def node_iter_drain {α : Type} : NodeIterStack α → List (Node α)
  | [] => []
  | [] :: rest => node_iter_drain rest
  | (h :: t) :: rest => h :: node_iter_drain (h.children :: t :: rest)
termination_by s => 2 * stack_size s + s.length
decreasing_by
  all_goals
    first
      | (cases h with
         | mk op cs => simp [stack_size, node_list_size, node_size, Node.children] <;> omega)
      | (simp [stack_size, node_list_size, node_size, Node.children] <;> omega)

/-- The full node sequence of `Node::iter` (`src/tree/iter.rs` lines 44-49). -/
def node_iter_list {α : Type} (n : Node α) : List (Node α) :=
  node_iter_drain (node_iter_new n)

/-- Pre-order traversal of a forest: each root, then its descendants,
then the rest of the forest. -/
def preorder_forest {α : Type} : List (Node α) → List (Node α)
  | [] => []
  | n :: rest => n :: (preorder_forest n.children ++ preorder_forest rest)
termination_by l => node_list_size l
decreasing_by
  all_goals
    first
      | (cases n with
         | mk op cs => simp [node_list_size, node_size, Node.children] <;> omega)
      | (simp [node_list_size, node_size, Node.children] <;> omega)

/-- Pre-order traversal of every forest on a `NodeIter` stack, in stack
order. -/
def preorder_stack {α : Type} : NodeIterStack α → List (Node α)
  | [] => []
  | l :: rest => preorder_forest l ++ preorder_stack rest

/-! ## Variant checks (`src/value/mod.rs` lines 41-73) -/

/-- `Value::is_string`. -/
def is_string : Value → Bool
  | Value.Str _ => true
  | _ => false

/-- `Value::is_int`. -/
def is_int : Value → Bool
  | Value.Int _ => true
  | _ => false

/-- `Value::is_float`. -/
def is_float : Value → Bool
  | Value.Float _ => true
  | _ => false

/-- `Value::is_number`. -/
def is_number : Value → Bool
  | Value.Int _ => true
  | Value.Float _ => true
  | _ => false

/-- `Value::is_boolean`. -/
def is_boolean : Value → Bool
  | Value.Boolean _ => true
  | _ => false

/-- `Value::is_tuple`. -/
def is_tuple : Value → Bool
  | Value.Tuple _ => true
  | _ => false

/-- `Value::is_empty_value` (`Value::is_empty` in the source). -/
def is_empty_value : Value → Bool
  | Value.Empty => true
  | _ => false

/-! ## Helper lemmas -/

theorem node_size_eq {α : Type} (n : Node α) :
    node_size n = 1 + node_list_size n.children := by
  cases n with
  | mk op cs => simp [node_size, Node.children]

theorem node_iter_drain_eq_aux {α : Type} :
    ∀ (m : ℕ) (s : NodeIterStack α), 2 * stack_size s + s.length ≤ m →
      node_iter_drain s = preorder_stack s := by
  intro m
  induction m with
  | zero =>
    intro s h
    match s with
    | [] => simp [node_iter_drain, preorder_stack]
    | l :: rest => simp at h
  | succ m ih =>
    intro s h
    match s with
    | [] => simp [node_iter_drain, preorder_stack]
    | [] :: rest =>
      have hb : 2 * stack_size rest + rest.length ≤ m := by
        simp [stack_size, node_list_size] at h ⊢
        omega
      rw [node_iter_drain, ih rest hb]
      simp [preorder_stack, preorder_forest]
    | (hd :: t) :: rest =>
      have hsz : node_size hd = 1 + node_list_size hd.children := node_size_eq hd
      have hb : 2 * stack_size (hd.children :: t :: rest) +
          (hd.children :: t :: rest).length ≤ m := by
        simp [stack_size, node_list_size] at h ⊢
        omega
      rw [node_iter_drain, ih (hd.children :: t :: rest) hb]
      simp [preorder_stack, preorder_forest]

theorem preorder_forest_mem_size {α : Type} :
    ∀ (m : ℕ) (l : List (Node α)) (x : Node α), node_list_size l ≤ m →
      x ∈ preorder_forest l → node_size x ≤ node_list_size l := by
  intro m
  induction m with
  | zero =>
    intro l x h hx
    match l with
    | [] => simp [preorder_forest] at hx
    | n :: rest =>
      have := node_size_eq n
      simp [node_list_size] at h
      omega
  | succ m ih =>
    intro l x h hx
    match l with
    | [] => simp [preorder_forest] at hx
    | n :: rest =>
      have hn := node_size_eq n
      have hsz : node_list_size (n :: rest) = node_size n + node_list_size rest := by
        simp [node_list_size]
      rw [preorder_forest] at hx
      simp only [List.mem_cons, List.mem_append] at hx
      rcases hx with hx | hx | hx
      · subst hx; omega
      · have hb : node_list_size n.children ≤ m := by omega
        have := ih n.children x hb hx
        omega
      · have hb : node_list_size rest ≤ m := by omega
        have := ih rest x hb hx
        omega

theorem i64_from_usize_lossy_small (n : ℕ) (h : n < pow2 63) :
    i64_from_usize_lossy n = (n : ℤ) := by
  have e63 : pow2 63 = 9223372036854775808 := by decide
  have e64 : pow2 64 = 18446744073709551616 := by decide
  unfold i64_from_usize_lossy
  rw [e63] at h
  rw [e63, e64]
  have hmod : n % 18446744073709551616 = n := Nat.mod_eq_of_lt (by omega)
  rw [hmod]
  simp [h]

/-! ## The claims -/

/-- C10: for every operator-tree node `n`, the iterator returned by
`Node::iter` (documented as iterating over all nodes in the tree) yields
exactly the strict descendants of `n` in pre-order and never yields `n`
itself; in particular, for every leaf node the iterator yields nothing. -/
theorem node_iter_strict_descendants {α : Type} (n : Node α) :
    node_iter_list n = preorder_forest n.children ∧
    n ∉ node_iter_list n ∧
    (n.children = [] → node_iter_list n = []) := by
  have h1 : node_iter_list n = preorder_forest n.children := by
    unfold node_iter_list node_iter_new
    rw [node_iter_drain_eq_aux (2 * stack_size [n.children] + [n.children].length)
      [n.children] (le_refl _)]
    simp [preorder_stack]
  refine ⟨h1, ?_, ?_⟩
  · rw [h1]
    intro hmem
    have hle := preorder_forest_mem_size (node_list_size n.children) n.children n
      (le_refl _) hmem
    have h2 : node_size n = 1 + node_list_size n.children := node_size_eq n
    omega
  · intro h0
    rw [h1, h0]
    simp [preorder_forest]

/-- Closed witness for C10: on a leaf node the iterator yields nothing. -/
theorem node_iter_strict_descendants_witness :
    node_iter_list (Node.mk 0 ([] : List (Node ℕ))) = [] :=
  (node_iter_strict_descendants (Node.mk 0 [])).2.2 rfl

/-- C1: the spec says `min(1, 2.5, 2)` evaluates to `Value::Int(1)` and that
`min()` fails with a "no minimum" error.  The code disagrees on both counts:
the fold in the `min` built-in is seeded with `min_value()` (`i64::MIN` and
`f64::MIN - 1.0`) instead of `max_value()`, so the accumulators are never
beaten by an argument and `min(1, 2.5, 2)` returns `Value::Float` of the
(finite, see C7) value `f64::MIN - 1.0`, not `Value::Int(1)`; and `min()`
receives the `Empty` argument, whose `as_tuple()` fails with an
expected-tuple type error before `NoMinValue` could ever be produced. -/
theorem min_builtin_at_spec_example :
    min_builtin (Value.Tuple [Value.Int 1, Value.Float f64TwoPointFive, Value.Int 2]) =
      Except.ok (Value.Float (F64.Fin f64MinM)) ∧
    min_builtin (Value.Tuple [Value.Int 1, Value.Float f64TwoPointFive, Value.Int 2]) ≠
      Except.ok (Value.Int 1) ∧
    min_builtin Value.Empty = Except.error (EvalexprError.ExpectedTuple Value.Empty) ∧
    min_builtin Value.Empty ≠ Except.error EvalexprError.NoMinValue := by
  have h1 :
      min_builtin (Value.Tuple [Value.Int 1, Value.Float f64TwoPointFive, Value.Int 2]) =
        Except.ok (Value.Float (F64.Fin f64MinM)) := by rfl
  have h2 : min_builtin Value.Empty =
      Except.error (EvalexprError.ExpectedTuple Value.Empty) := by rfl
  refine ⟨h1, ?_, h2, ?_⟩
  · rw [h1]
    simp
  · rw [h2]
    simp

/-- C4: the spec says `min`/`max` return the extremal argument (an Int only
when every argument is Int and the extremal Int is not beaten by the extremal
Float, ties preferring Int).  The `min` built-in violates this: because its
fold is seeded with `min_value()` instead of `max_value()`, `min(1, 2)`
returns `Value::Float(f64::MIN - 1.0)` — a value that is not among the
arguments and not an Int although every argument was an Int.  (`max`, whose
seeds are the correct `min_value()`, does return the extremal argument on
the spec's example.) -/
theorem min_builtin_not_extremal :
    min_builtin (Value.Tuple [Value.Int 1, Value.Int 2]) =
      Except.ok (Value.Float (F64.Fin f64MinM)) ∧
    min_builtin (Value.Tuple [Value.Int 1, Value.Int 2]) ≠ Except.ok (Value.Int 1) ∧
    min_builtin (Value.Tuple [Value.Int 1, Value.Int 2]) ≠ Except.ok (Value.Int 2) ∧
    max_builtin (Value.Tuple [Value.Int 1, Value.Float f64TwoPointFive, Value.Int 2]) =
      Except.ok (Value.Float f64TwoPointFive) := by
  have h1 : min_builtin (Value.Tuple [Value.Int 1, Value.Int 2]) =
      Except.ok (Value.Float (F64.Fin f64MinM)) := by rfl
  refine ⟨h1, ?_, ?_, by rfl⟩
  · rw [h1]
    simp
  · rw [h1]
    simp

/-- C7: the spec claims `<f64 as Number>::min_value`/`max_value` return the
type's bounds without crashing, the internal assertions holding that
`f64::MIN - 1.0` is infinite and sign-negative and `f64::MAX + 1.0` is
infinite and sign-positive.  In IEEE-754 round-to-nearest, subtracting `1.0`
from `f64::MIN` (or adding `1.0` to `f64::MAX`) rounds straight back to the
bound — `1.0` is far below half an ulp there — so both results are FINITE
and the code's `debug_assert!(result.is_infinite())` fails (a panic in debug
builds). -/
theorem f64_bounds_not_infinite :
    f64_num_min_value = some (F64.Fin f64MinM) ∧
    f64_num_max_value = some (F64.Fin f64MaxM) ∧
    f64_is_infinite (F64.Fin f64MinM) = false ∧
    f64_is_infinite (F64.Fin f64MaxM) = false ∧
    f64_is_sign_negative (F64.Fin f64MinM) = true := by
  refine ⟨by decide, by decide, by rfl, by rfl, by decide⟩

/-- C2 (evaluator modelled from the spec, §4.3): `&&` and `||` never
evaluate their right operand when the left operand alone determines the
result: `false && (1/0 == 0)` evaluates to Boolean `false` without error,
and for EVERY right child `r` — whatever errors or assignments it contains —
`false && r` yields `false` and `true || r` yields `true`, with the context
returned unchanged (no side effects of `r` occur). -/
theorem short_circuit_and_or :
    (∀ c : Context,
      eval (Expr.and (Expr.const (Value.Boolean false))
        (Expr.eq (Expr.div (Expr.const (Value.Int 1)) (Expr.const (Value.Int 0)))
          (Expr.const (Value.Int 0)))) c = Except.ok (Value.Boolean false, c)) ∧
    (∀ (r : Expr) (c : Context),
      eval (Expr.and (Expr.const (Value.Boolean false)) r) c =
        Except.ok (Value.Boolean false, c)) ∧
    (∀ (r : Expr) (c : Context),
      eval (Expr.or (Expr.const (Value.Boolean true)) r) c =
        Except.ok (Value.Boolean true, c)) :=
  ⟨fun _ => rfl, fun _ _ => rfl, fun _ _ => rfl⟩

/-- C3: `i64::checked_add(i64::MAX, 1)` is `None`, and (evaluator modelled
from the spec, §4.3) evaluating the addition of the integer maximum and `1`
reports an overflow error carrying both operands rather than wrapping. -/
theorem checked_add_overflow_reported :
    i64_checked_add i64MaxInt 1 = none ∧
    (∀ c : Context,
      eval (Expr.add (Expr.const (Value.Int i64MaxInt)) (Expr.const (Value.Int 1))) c =
        Except.error (EvalexprError.AdditionError (Value.Int i64MaxInt) (Value.Int 1))) :=
  ⟨by decide, fun _ => rfl⟩

/-- C6: `Value` equality is structural (`derive(PartialEq)`) and never
crosses Int and Float: `Value::Int(i)` is unequal to `Value::Float(f)` for
all payloads, so (evaluator modelled from the spec) `1 == 1.0` evaluates to
Boolean `false`. -/
theorem value_eq_no_cross_kind :
    (∀ (i : ℤ) (f : F64), value_eq (Value.Int i) (Value.Float f) = false) ∧
    (∀ (i : ℤ) (f : F64), value_eq (Value.Float f) (Value.Int i) = false) ∧
    (∀ c : Context,
      eval (Expr.eq (Expr.const (Value.Int 1)) (Expr.const (Value.Float f64One))) c =
        Except.ok (Value.Boolean false, c)) :=
  ⟨fun _ _ => rfl, fun _ _ => rfl, fun _ => rfl⟩

/-- C5: the built-in `if` applied to a 3-element tuple whose first element
is a Boolean returns the second element when the condition is true and the
third when it is false; a first element that is not a Boolean, a tuple of
another length, or a non-tuple argument are all reported as errors.  Both
branches are evaluated eagerly — the argument is a Tuple node built before
the call (evaluator modelled from the spec, §9): in the final conjunct the
assignments in BOTH branches have executed before `if` selects a result. -/
theorem if_builtin_spec :
    (∀ (b : Bool) (t e : Value),
      if_builtin (Value.Tuple [Value.Boolean b, t, e]) =
        Except.ok (if b then t else e)) ∧
    (∀ x t e : Value, is_boolean x = false →
      if_builtin (Value.Tuple [x, t, e]) =
        Except.error (EvalexprError.ExpectedBoolean x)) ∧
    (∀ l : List Value, l.length ≠ 3 →
      if_builtin (Value.Tuple l) =
        Except.error (EvalexprError.ExpectedFixedLenTuple 3 (Value.Tuple l))) ∧
    (∀ v : Value, is_tuple v = false →
      if_builtin v = Except.error (EvalexprError.ExpectedTuple v)) ∧
    (eval (Expr.call ("if") (Expr.tuple [Expr.const (Value.Boolean true),
        Expr.assign ("a") (Expr.const (Value.Int 1)),
        Expr.assign ("b") (Expr.const (Value.Int 2))])) [] =
      Except.ok (Value.Int 1, [(("a"), Value.Int 1), (("b"), Value.Int 2)])) := by
  refine ⟨?_, ?_, ?_, ?_, by rfl⟩
  · intro b t e
    cases b <;> rfl
  · intro x t e hx
    cases x <;> simp_all [if_builtin, as_fixed_len_tuple, as_boolean, is_boolean]
  · intro l hl
    simp [if_builtin, as_fixed_len_tuple, hl]
  · intro v hv
    cases v <;> simp_all [if_builtin, as_fixed_len_tuple, is_tuple]

/-- Closed witness for C5: a non-Boolean condition is reported as an
expected-boolean error carrying the offending value. -/
theorem if_builtin_spec_witness :
    if_builtin (Value.Tuple [Value.Int 0, Value.Int 7, Value.Int 8]) =
      Except.error (EvalexprError.ExpectedBoolean (Value.Int 0)) :=
  if_builtin_spec.2.1 (Value.Int 0) (Value.Int 7) (Value.Int 8) rfl

/-- C8: the built-in `len` returns the String's byte length as an Int for a
String argument and the Tuple's arity as an Int for a Tuple argument (via
`from_usize_lossy`, the identity below `2⁶³`), and reports a type error
naming `String` and `Tuple` as the acceptable kinds for every other
argument. -/
theorem len_builtin_spec :
    (∀ s : String,
      len_builtin (Value.Str s) =
        Except.ok (Value.Int (i64_from_usize_lossy s.utf8ByteSize))) ∧
    (∀ s : String, s.utf8ByteSize < pow2 63 →
      len_builtin (Value.Str s) = Except.ok (Value.Int (s.utf8ByteSize : ℤ))) ∧
    (∀ t : List Value,
      len_builtin (Value.Tuple t) =
        Except.ok (Value.Int (i64_from_usize_lossy t.length))) ∧
    (∀ t : List Value, t.length < pow2 63 →
      len_builtin (Value.Tuple t) = Except.ok (Value.Int (t.length : ℤ))) ∧
    (∀ v : Value, is_string v = false → is_tuple v = false →
      len_builtin v =
        Except.error (EvalexprError.TypeError v [ValueType.String, ValueType.Tuple])) := by
  refine ⟨fun s => rfl, ?_, fun t => rfl, ?_, ?_⟩
  · intro s hs
    simp [len_builtin, i64_from_usize_lossy_small s.utf8ByteSize hs]
  · intro t ht
    simp [len_builtin, i64_from_usize_lossy_small t.length ht]
  · intro v hs ht
    cases v <;> simp_all [len_builtin, is_string, is_tuple]

/-- Closed witness for C8: the length of `"abc"` is `Int 3`, the arity of a
pair is `Int 2`, and an Int argument is a type error naming String and
Tuple. -/
theorem len_builtin_spec_witness :
    len_builtin (Value.Str ("abc")) = Except.ok (Value.Int 3) ∧
    len_builtin (Value.Tuple [Value.Int 1, Value.Empty]) = Except.ok (Value.Int 2) ∧
    len_builtin (Value.Int 9) =
      Except.error (EvalexprError.TypeError (Value.Int 9)
        [ValueType.String, ValueType.Tuple]) :=
  ⟨len_builtin_spec.2.1 ("abc") (by decide),
   len_builtin_spec.2.2.2.1 [Value.Int 1, Value.Empty] (by decide),
   len_builtin_spec.2.2.2.2 (Value.Int 9) rfl rfl⟩

/-- C9: each typed accessor returns `Ok` with the contained payload exactly
when the value is of the corresponding variant, and otherwise returns the
typed expected-kind error carrying the offending value itself — never a
panic, never a bare string. -/
theorem accessors_typed_failure (v : Value) :
    (is_string v = true → ∃ s, v = Value.Str s ∧ as_string v = Except.ok s) ∧
    (is_string v = false →
      as_string v = Except.error (EvalexprError.ExpectedString v)) ∧
    (is_int v = true → ∃ i, v = Value.Int i ∧ as_int v = Except.ok i) ∧
    (is_int v = false → as_int v = Except.error (EvalexprError.ExpectedInt v)) ∧
    (is_float v = true → ∃ f, v = Value.Float f ∧ as_float v = Except.ok f) ∧
    (is_float v = false →
      as_float v = Except.error (EvalexprError.ExpectedFloat v)) ∧
    (is_boolean v = true → ∃ b, v = Value.Boolean b ∧ as_boolean v = Except.ok b) ∧
    (is_boolean v = false →
      as_boolean v = Except.error (EvalexprError.ExpectedBoolean v)) ∧
    (is_tuple v = true → ∃ t, v = Value.Tuple t ∧ as_tuple v = Except.ok t) ∧
    (is_tuple v = false →
      as_tuple v = Except.error (EvalexprError.ExpectedTuple v)) ∧
    (is_empty_value v = true → as_empty v = Except.ok ()) ∧
    (is_empty_value v = false →
      as_empty v = Except.error (EvalexprError.ExpectedEmpty v)) := by
  cases v <;>
    simp [is_string, is_int, is_float, is_boolean, is_tuple, is_empty_value,
      as_string, as_int, as_float, as_boolean, as_tuple, as_empty]

/-- Closed witness for C9: `as_string` on an Int fails with the typed error
carrying the offending value, and `as_empty` on `Empty` succeeds. -/
theorem accessors_typed_failure_witness :
    as_string (Value.Int 5) =
      Except.error (EvalexprError.ExpectedString (Value.Int 5)) ∧
    as_empty Value.Empty = Except.ok () :=
  ⟨(accessors_typed_failure (Value.Int 5)).2.1 rfl,
   (accessors_typed_failure Value.Empty).2.2.2.2.2.2.2.2.2.2.1 rfl⟩
